import Mathlib

/-!
Shallow embedding of the provider-adapter layer of the peerlogic-voip
repository (src/voip/adapters/base.py, mock/client.py, netsapiens/client.py,
src/voip/models/schemas.py, src/voip/services/voip_service.py and
src/voip/adapters/registry.py), together with theorems settling the frozen
claims about its natural-language specification.

Modelling conventions:
- Python dicts read with `.get(k)` / `.get(k, default)` become structures with
  `Option` fields and `Option.getD`.
- Python string truthiness (`if s:` fails for `None` and `""`) is `truthy`.
- Machine-independent data (JSON payloads, HTTP responses) is passed in as
  explicit values; `response.json()` is abstracted as an `Option` payload on
  the response record (`none` = the body does not parse as JSON).
- Datetime strings are carried verbatim: `_parse_datetime` keeps a nonempty
  raw string and drops empty/absent values; ISO-format parse failures are not
  modelled (no claim depends on datetime parsing).
-/

namespace PeerlogicVoIP

/-- Python truthiness of an optional string: `None` and `""` are falsy. -/
def truthy : Option String → Bool
  | some s => s != ""
  | none => false

/-- Whether `needle` occurs as a contiguous infix of `hay` (models Python `needle in hay`). -/
def containsSub (needle : List Char) : List Char → Bool
  | [] => needle.isEmpty
  | c :: rest => needle.isPrefixOf (c :: rest) || containsSub needle rest

/-- String containment: models Python `needle in hay` on `str`. -/
def strContains (hay needle : String) : Bool :=
  containsSub needle.data hay.data

/-- Python `str.lower()`, character by character (kernel-computable variant
of `String.toLower`). -/
def strToLower (s : String) : String :=
  ⟨s.data.map Char.toLower⟩

/-- Python `text[:n]`: the first `n` characters (kernel-computable variant
of `String.take`). -/
def strTake (s : String) (n : Nat) : String :=
  ⟨s.data.take n⟩

/-- Python `not text or not text.strip()`: the body is empty or
whitespace-only (i.e. `str.strip()` removes every character). -/
def isBlank (s : String) : Bool :=
  s.data.all Char.isWhitespace

/-- Comma-space joining of field names, as in the static credential messages. -/
def joinFields : List String → String
  | [] => ""
  | [f] => f
  | f :: rest => f ++ ", " ++ joinFields rest

-- ================================================================
-- Universal schema enums (src/voip/models/schemas.py lines 20-50)
-- ================================================================

inductive UserStatus
  | active
  | inactive
  | suspended
  | pending
deriving DecidableEq, Repr, Fintype

/-- The pydantic `str` value of a `UserStatus` member. -/
def UserStatus.val : UserStatus → String
  | .active => "active"
  | .inactive => "inactive"
  | .suspended => "suspended"
  | .pending => "pending"

inductive DeviceStatus
  | online
  | offline
  | busy
  | unknown
deriving DecidableEq, Repr, Fintype

inductive DeviceType
  | desk_phone
  | softphone
  | mobile_app
  | webrtc
  | ata
  | conference
  | other
deriving DecidableEq, Repr, Fintype

/-- Modelled from the spec: `CallStatus` is imported from the universal schema
module but its definition is not part of the provided sources; its members are
reconstructed from the values used by `NetSapiensAdapter._transform_call`. -/
inductive CallStatus
  | ringing
  | connected
  | on_hold
  | muted
  | transferring
  | conference
  | ended
  | failed
  | busy
  | no_answer
deriving DecidableEq, Repr, Fintype

/-- Modelled from the spec: `CallDirection` is imported from the universal
schema module but its definition is not part of the provided sources; its
members are reconstructed from the values used by
`NetSapiensAdapter._transform_call`. -/
inductive CallDirection
  | inbound
  | outbound
  | internal
deriving DecidableEq, Repr, Fintype

-- ================================================================
-- Universal schema models (src/voip/models/schemas.py lines 57-280)
-- ================================================================

/-- Embedding of `VoIPError` (schemas.py lines 272-278). `details` is a string-keyed map,
modelled as an association list. -/
structure VoIPError where
  code : String
  message : String
  details : Option (List (String × String)) := none
  provider_error : Option String := none
deriving DecidableEq, Repr

/-- Embedding of `AdapterResult` (base.py lines 43-70): either a success payload or a
structured error, never both. The payload type is a parameter because each
operation returns a different shape. -/
inductive AdapterResult (α : Type)
  | ok (data : α)
  | fail (error : VoIPError)
deriving DecidableEq, Repr

/-- The error code of a failed result, `none` on success. -/
def AdapterResult.errorCode : AdapterResult α → Option String
  | .ok _ => none
  | .fail e => some e.code

/-- The error message of a failed result, `none` on success. -/
def AdapterResult.errorMessage : AdapterResult α → Option String
  | .ok _ => none
  | .fail e => some e.message

/-- Embedding of `ProviderMetadata` (schemas.py lines 67-74). The raw vendor record type is
a parameter (the source stores an untyped dict). -/
structure ProviderMetadata (ρ : Type) where
  provider_type : String
  raw_id : String
  raw_data : ρ
deriving DecidableEq, Repr

/-- Embedding of `VoIPUser` (schemas.py lines 81-122), parametrised by the raw vendor
record type carried in its metadata. Datetimes are carried as raw strings. -/
structure VoIPUser (ρ : Type) where
  id : String
  username : String
  email : Option String := none
  first_name : Option String := none
  last_name : Option String := none
  display_name : Option String := none
  extension : Option String := none
  did : Option String := none
  status : UserStatus := .active
  department : Option String := none
  site : Option String := none
  has_voicemail : Bool := true
  has_sms : Bool := false
  has_fax : Bool := false
  created_at : Option String := none
  updated_at : Option String := none
  provider_metadata : Option (ProviderMetadata ρ) := none
deriving DecidableEq, Repr

/-- Embedding of `VoIPDevice` (schemas.py lines 159-191). -/
structure VoIPDevice (ρ : Type) where
  id : String
  name : String
  device_type : DeviceType := .desk_phone
  user_id : Option String := none
  extension : Option String := none
  mac_address : Option String := none
  ip_address : Option String := none
  manufacturer : Option String := none
  model : Option String := none
  firmware_version : Option String := none
  status : DeviceStatus := .unknown
  last_seen : Option String := none
  provider_metadata : Option (ProviderMetadata ρ) := none
deriving DecidableEq, Repr

/-- Modelled from the spec: `VoIPCall` is imported from the universal schema
module but its definition is not part of the provided sources; its fields are
reconstructed from the constructor call in
`NetSapiensAdapter._transform_call`. -/
structure VoIPCall (ρ : Type) where
  id : String
  from_number : String
  to_number : String
  from_extension : Option String := none
  to_extension : Option String := none
  from_user_id : Option String := none
  to_user_id : Option String := none
  direction : CallDirection
  status : CallStatus
  started_at : Option String := none
  answered_at : Option String := none
  ended_at : Option String := none
  duration : Option Nat := none
  is_on_hold : Bool := false
  is_muted : Bool := false
  is_recorded : Bool := false
  is_conference : Bool := false
  conference_id : Option String := none
  participants : List String := []
  provider_metadata : Option (ProviderMetadata ρ) := none
deriving DecidableEq, Repr

/-- Embedding of `PaginatedResponse` (schemas.py lines 248-255), shared by
`VoIPUserList` / `VoIPDeviceList` / `VoIPCallList`. -/
structure PaginatedResponse (α : Type) where
  items : List α
  total : Nat
  page : Nat := 1
  page_size : Nat := 50
  has_more : Bool := false
deriving DecidableEq, Repr

/-- Embedding of `_parse_datetime` (netsapiens/client.py lines 614-623): falsy values map
to `None`; datetime strings are kept verbatim (ISO parsing abstracted). -/
def parse_datetime (value : Option String) : Option String :=
  match value with
  | none => none
  | some s => if s = "" then none else some s

-- ================================================================
-- Mock adapter (src/voip/adapters/mock/client.py)
-- ================================================================

namespace Mock

/-- A stored mock user dict (`MOCK_USERS` entries and records built by
`create_user` / `update_user`); `id` is always present, other keys are read
with `.get`. -/
structure MockUser where
  id : String
  username : Option String := none
  email : Option String := none
  first_name : Option String := none
  last_name : Option String := none
  extension : Option String := none
  did : Option String := none
  department : Option String := none
  status : Option String := none
deriving DecidableEq, Repr

/-- A stored mock device dict (`MOCK_DEVICES` entries and records built by
`create_device`). -/
structure MockDevice where
  id : String
  name : Option String := none
  device_type : Option String := none
  user_id : Option String := none
  mac_address : Option String := none
  manufacturer : Option String := none
  model : Option String := none
  status : Option String := none
deriving DecidableEq, Repr

/-- The sample users seeded into the mock store (mock/client.py lines 26-51),
in dict insertion order. -/
def MOCK_USERS : List MockUser :=
  [ ⟨"user-001", some "jsmith", some "john.smith@testdental.com", some "John",
      some "Smith", some "101", some "+15551234101", some "Front Desk", some "active"⟩
  , ⟨"user-002", some "mjohnson", some "mary.johnson@testdental.com", some "Mary",
      some "Johnson", some "102", some "+15551234102", some "Hygiene", some "active"⟩
  , ⟨"user-003", some "drwilliams", some "dr.williams@testdental.com", some "Robert",
      some "Williams", some "103", some "+15551234103", some "Dentist", some "active"⟩
  , ⟨"user-004", some "sbrown", some "sarah.brown@testdental.com", some "Sarah",
      some "Brown", some "104", some "+15551234104", some "Front Desk", some "active"⟩
  , ⟨"user-005", some "drdavis", some "dr.davis@testdental.com", some "Emily",
      some "Davis", some "105", some "+15551234105", some "Dentist", some "active"⟩
  , ⟨"user-006", some "jgarcia", some "jose.garcia@testdental.com", some "Jose",
      some "Garcia", some "106", some "+15551234106", some "Billing", some "active"⟩
  , ⟨"user-007", some "amiller", some "amanda.miller@testdental.com", some "Amanda",
      some "Miller", some "107", some "+15551234107", some "Hygiene", some "inactive"⟩
  , ⟨"user-008", some "twang", some "tom.wang@testdental.com", some "Tom",
      some "Wang", some "108", some "+15551234108", some "IT", some "active"⟩ ]

/-- The sample devices seeded into the mock store (mock/client.py lines 54-76). -/
def MOCK_DEVICES : List MockDevice :=
  [ ⟨"device-001", some "Front Desk Phone 1", some "desk_phone", some "user-001",
      some "AA:BB:CC:DD:EE:01", some "Polycom", some "VVX 450", some "online"⟩
  , ⟨"device-002", some "Front Desk Phone 2", some "desk_phone", some "user-004",
      some "AA:BB:CC:DD:EE:02", some "Polycom", some "VVX 450", some "online"⟩
  , ⟨"device-003", some "Hygiene Room 1", some "desk_phone", some "user-002",
      some "AA:BB:CC:DD:EE:03", some "Yealink", some "T46U", some "online"⟩
  , ⟨"device-004", some "Dr. Williams Office", some "desk_phone", some "user-003",
      some "AA:BB:CC:DD:EE:04", some "Polycom", some "VVX 601", some "offline"⟩
  , ⟨"device-005", some "Dr. Davis Office", some "desk_phone", some "user-005",
      some "AA:BB:CC:DD:EE:05", some "Polycom", some "VVX 601", some "online"⟩
  , ⟨"device-006", some "Billing Softphone", some "softphone", some "user-006",
      none, some "NetSapiens", some "Desktop App", some "online"⟩
  , ⟨"device-007", some "Conference Room", some "conference", none,
      some "AA:BB:CC:DD:EE:07", some "Poly", some "Trio 8500", some "online"⟩ ]

/-- The status map inside `_to_voip_user` (mock/client.py line 194). -/
def user_status_map (s : String) : Option UserStatus :=
  if s = "active" then some .active
  else if s = "inactive" then some .inactive
  else none

/-- Embedding of `MockAdapter._to_voip_user` (mock/client.py lines 193-212). `now` stands
for `datetime.now()`; `created_at` is `now - 30 days` in epoch seconds. -/
def to_voip_user (now : Nat) (data : MockUser) : VoIPUser MockUser :=
  { id := data.id
  , username := data.username.getD ""
  , email := data.email
  , first_name := data.first_name
  , last_name := data.last_name
  , extension := data.extension
  , did := data.did
  , department := data.department
  , status := (user_status_map (data.status.getD "active")).getD .active
  , has_voicemail := true
  , created_at := some (toString (now - 30 * 86400))
  , provider_metadata := some
      { provider_type := "mock"
      , raw_id := data.id
      , raw_data := data } }

/-- The type map inside `_to_voip_device` (mock/client.py lines 274-278). -/
def device_type_map (s : String) : Option DeviceType :=
  if s = "desk_phone" then some .desk_phone
  else if s = "softphone" then some .softphone
  else if s = "conference" then some .conference
  else none

/-- The status map inside `_to_voip_device` (mock/client.py lines 279-282). -/
def device_status_map (s : String) : Option DeviceStatus :=
  if s = "online" then some .online
  else if s = "offline" then some .offline
  else none

/-- Embedding of `MockAdapter._to_voip_device` (mock/client.py lines 273-298). `last_seen`
is `now - 5 minutes` in epoch seconds. -/
def to_voip_device (now : Nat) (data : MockDevice) : VoIPDevice MockDevice :=
  { id := data.id
  , name := data.name.getD ""
  , device_type := (data.device_type.bind device_type_map).getD .other
  , user_id := data.user_id
  , mac_address := data.mac_address
  , manufacturer := data.manufacturer
  , model := data.model
  , status := (data.status.bind device_status_map).getD .unknown
  , last_seen := some (toString (now - 5 * 60))
  , provider_metadata := some
      { provider_type := "mock"
      , raw_id := data.id
      , raw_data := data } }

/-- The search predicate of `MockAdapter.list_users` (mock/client.py lines
117-124): `searchLower` (already lowercased) occurring as a substring of any
of the lowercased username / email / first_name / last_name / extension
fields, each read with `.get(k, "")`. -/
def searchMatch (searchLower : String) (u : MockUser) : Bool :=
  strContains (strToLower (u.username.getD "")) searchLower ||
  strContains (strToLower (u.email.getD "")) searchLower ||
  strContains (strToLower (u.first_name.getD "")) searchLower ||
  strContains (strToLower (u.last_name.getD "")) searchLower ||
  strContains (strToLower (u.extension.getD "")) searchLower

/-- Embedding of `MockAdapter.list_users` (mock/client.py lines 106-143). `store` is the
current contents of `self._users` in insertion order; `now` stands for
`datetime.now()`. Python falsy guards (`if search:` / `if status:`) skip the
filters for `None` and for the empty string. -/
def list_users (now : Nat) (store : List MockUser) (page page_size : Nat)
    (search : Option String) (status : Option String) :
    AdapterResult (PaginatedResponse (VoIPUser MockUser)) :=
  let users :=
    if truthy search then
      store.filter (searchMatch (strToLower (search.getD "")))
    else store
  let users :=
    if truthy status then
      users.filter (fun u => u.status == status)
    else users
  let total := users.length
  let start := (page - 1) * page_size
  let page_users := (users.drop start).take page_size
  .ok { items := page_users.map (to_voip_user now)
      , total := total
      , page := page
      , page_size := page_size
      , has_more := start + page_size < total }

/-- Embedding of `MockAdapter.list_devices` (mock/client.py lines 218-242). -/
def list_devices (now : Nat) (store : List MockDevice) (page page_size : Nat)
    (user_id : Option String) :
    AdapterResult (PaginatedResponse (VoIPDevice MockDevice)) :=
  let devices :=
    if truthy user_id then
      store.filter (fun d => d.user_id == user_id)
    else store
  let total := devices.length
  let start := (page - 1) * page_size
  let page_devices := (devices.drop start).take page_size
  .ok { items := page_devices.map (to_voip_device now)
      , total := total
      , page := page
      , page_size := page_size
      , has_more := start + page_size < total }

/-- Embedding of `MockAdapter.get_user` (mock/client.py lines 145-148), with the store as
an association list keyed by id. -/
def get_user (now : Nat) (store : List MockUser) (user_id : String) :
    AdapterResult (VoIPUser MockUser) :=
  match store.find? (fun u => u.id == user_id) with
  | none => .fail { code := "NOT_FOUND", message := "User not found: " ++ user_id }
  | some u => .ok (to_voip_user now u)

end Mock

-- ================================================================
-- NetSapiens adapter (src/voip/adapters/netsapiens/client.py)
-- ================================================================

namespace NS

/-- A raw NetSapiens subscriber record, with the keys read by
`_transform_user` as optional fields (`.get` semantics). -/
structure NSUser where
  user_id : Option String := none
  user : Option String := none
  email : Option String := none
  first_name : Option String := none
  last_name : Option String := none
  display_name : Option String := none
  extension : Option String := none
  did : Option String := none
  status : Option String := none
  department : Option String := none
  site : Option String := none
  voicemail_enabled : Option Bool := none
  created_at : Option String := none
  updated_at : Option String := none
deriving DecidableEq, Repr

/-- A raw NetSapiens device record, with the keys read by
`_transform_device`. -/
structure NSDevice where
  device_id : Option String := none
  device_name : Option String := none
  device_type : Option String := none
  user : Option String := none
  extension : Option String := none
  mac_address : Option String := none
  ip_address : Option String := none
  manufacturer : Option String := none
  model : Option String := none
  firmware : Option String := none
  status : Option String := none
  last_seen : Option String := none
deriving DecidableEq, Repr

/-- A raw NetSapiens call record, with the keys read by `_transform_call`. -/
structure NSCall where
  call_id : Option String := none
  from_number : Option String := none
  to_number : Option String := none
  from_extension : Option String := none
  to_extension : Option String := none
  from_user_id : Option String := none
  to_user_id : Option String := none
  direction : Option String := none
  status : Option String := none
  started_at : Option String := none
  answered_at : Option String := none
  ended_at : Option String := none
  duration : Option Nat := none
  on_hold : Option Bool := none
  muted : Option Bool := none
  recording : Option Bool := none
  conference : Option Bool := none
  conference_id : Option String := none
  participants : Option (List String) := none
deriving DecidableEq, Repr

/-- Python `a or b` where `a` is an optional string and `b` a string: the
right operand is taken when the left is `None` or `""`. -/
def pyOr (a : Option String) (b : String) : String :=
  match a with
  | some s => if s = "" then b else s
  | none => b

/-- The status map inside `_transform_user` (netsapiens/client.py
lines 458-462). -/
def user_status_map (s : String) : Option UserStatus :=
  if s = "active" then some .active
  else if s = "inactive" then some .inactive
  else if s = "suspended" then some .suspended
  else none

/-- Embedding of `NetSapiensAdapter._transform_user` (netsapiens/client.py lines 454-484). -/
def transform_user (ns_user : NSUser) : VoIPUser NSUser :=
  { id := pyOr ns_user.user_id (ns_user.user.getD "")
  , username := ns_user.user.getD ""
  , email := ns_user.email
  , first_name := ns_user.first_name
  , last_name := ns_user.last_name
  , display_name := ns_user.display_name
  , extension := ns_user.extension
  , did := ns_user.did
  , status := (user_status_map (ns_user.status.getD "active")).getD .active
  , department := ns_user.department
  , site := ns_user.site
  , has_voicemail := ns_user.voicemail_enabled.getD true
  , created_at := parse_datetime ns_user.created_at
  , updated_at := parse_datetime ns_user.updated_at
  , provider_metadata := some
      { provider_type := "netsapiens"
      , raw_id := ns_user.user_id.getD (ns_user.user.getD "")
      , raw_data := ns_user } }

/-- The map inside `_from_ns_device_type` (netsapiens/client.py lines 638-644). -/
def device_type_map (s : String) : Option DeviceType :=
  if s = "sip_phone" then some .desk_phone
  else if s = "softphone" then some .softphone
  else if s = "mobile" then some .mobile_app
  else if s = "webrtc" then some .webrtc
  else if s = "ata" then some .ata
  else none

/-- Embedding of `NetSapiensAdapter._from_ns_device_type` (netsapiens/client.py lines
636-645); the argument is optional because the caller passes
`ns_device.get("device_type")`. -/
def from_ns_device_type (ns_type : Option String) : DeviceType :=
  (ns_type.bind device_type_map).getD .other

/-- The map inside `_map_device_status` (netsapiens/client.py lines 649-655). -/
def device_status_map (s : String) : Option DeviceStatus :=
  if s = "online" then some .online
  else if s = "offline" then some .offline
  else if s = "busy" then some .busy
  else if s = "registered" then some .online
  else if s = "unregistered" then some .offline
  else none

/-- Embedding of `NetSapiensAdapter._map_device_status` (netsapiens/client.py lines
647-656). -/
def map_device_status (ns_status : Option String) : DeviceStatus :=
  (ns_status.bind device_status_map).getD .unknown

/-- Embedding of `NetSapiensAdapter._transform_device` (netsapiens/client.py lines
587-608). -/
def transform_device (ns_device : NSDevice) : VoIPDevice NSDevice :=
  { id := ns_device.device_id.getD (ns_device.mac_address.getD "")
  , name := ns_device.device_name.getD ""
  , device_type := from_ns_device_type ns_device.device_type
  , user_id := ns_device.user
  , extension := ns_device.extension
  , mac_address := ns_device.mac_address
  , ip_address := ns_device.ip_address
  , manufacturer := ns_device.manufacturer
  , model := ns_device.model
  , firmware_version := ns_device.firmware
  , status := map_device_status ns_device.status
  , last_seen := parse_datetime ns_device.last_seen
  , provider_metadata := some
      { provider_type := "netsapiens"
      , raw_id := ns_device.device_id.getD (ns_device.mac_address.getD "")
      , raw_data := ns_device } }

/-- The status map inside `_transform_call` (netsapiens/client.py lines
1032-1043). -/
def call_status_map (s : String) : Option CallStatus :=
  if s = "ringing" then some .ringing
  else if s = "connected" then some .connected
  else if s = "on_hold" then some .on_hold
  else if s = "muted" then some .muted
  else if s = "transferring" then some .transferring
  else if s = "conference" then some .conference
  else if s = "ended" then some .ended
  else if s = "failed" then some .failed
  else if s = "busy" then some .busy
  else if s = "no_answer" then some .no_answer
  else none

/-- The call-direction heuristic inside `_transform_call` (netsapiens/
client.py lines 1045-1052). -/
def call_direction (ns_call : NSCall) : CallDirection :=
  let from_num := ns_call.from_number.getD ""
  if "+".data.isPrefixOf from_num.data || from_num.length > 6 then
    if ns_call.direction == some "outbound" then .outbound else .inbound
  else .internal

/-- Embedding of `NetSapiensAdapter._transform_call` (netsapiens/client.py lines
1029-1079). -/
def transform_call (ns_call : NSCall) : VoIPCall NSCall :=
  { id := ns_call.call_id.getD ""
  , from_number := ns_call.from_number.getD ""
  , to_number := ns_call.to_number.getD ""
  , from_extension := ns_call.from_extension
  , to_extension := ns_call.to_extension
  , from_user_id := ns_call.from_user_id
  , to_user_id := ns_call.to_user_id
  , direction := call_direction ns_call
  , status := (call_status_map (ns_call.status.getD "connected")).getD .connected
  , started_at := parse_datetime ns_call.started_at
  , answered_at := parse_datetime ns_call.answered_at
  , ended_at := parse_datetime ns_call.ended_at
  , duration := ns_call.duration
  , is_on_hold := ns_call.on_hold.getD false
  , is_muted := ns_call.muted.getD false
  , is_recorded := ns_call.recording.getD false
  , is_conference := ns_call.conference.getD false
  , conference_id := ns_call.conference_id
  , participants := ns_call.participants.getD []
  , provider_metadata := some
      { provider_type := "netsapiens"
      , raw_id := ns_call.call_id.getD ""
      , raw_data := ns_call } }

/-- The payload `list_users` reads out of a successful vendor response
(`result.data.get("subscribers", [])` and `result.data.get("total", ...)`). -/
structure UsersPayload where
  subscribers : List NSUser := []
  total : Option Nat := none
deriving DecidableEq, Repr

/-- The payload `list_devices` reads out of a successful vendor response. -/
structure DevicesPayload where
  devices : List NSDevice := []
  total : Option Nat := none
deriving DecidableEq, Repr

/-- The query parameters `list_users` sends to the vendor (netsapiens/
client.py lines 330-337): domain, limit, offset, and the search term when
truthy. The `status` argument of `list_users` is never added. -/
def list_users_params (domain : String) (page page_size : Nat)
    (search : Option String) : List (String × String) :=
  [ ("domain", domain)
  , ("limit", toString page_size)
  , ("offset", toString ((page - 1) * page_size)) ] ++
  (if truthy search then [("search", search.getD "")] else [])

/-- Embedding of `NetSapiensAdapter.list_users` (netsapiens/client.py lines 320-361),
given the outcome of its `_make_request` call. The `status` parameter is
accepted (as in the source signature) and is used by neither the request
parameters nor any local filter. -/
def list_users (page page_size : Nat) (search : Option String)
    (status : Option String) (request_result : AdapterResult UsersPayload) :
    AdapterResult (PaginatedResponse (VoIPUser NSUser)) :=
  match request_result with
  | .fail e => .fail e
  | .ok data =>
    let users := data.subscribers.map transform_user
    let total := data.total.getD users.length
    .ok { items := users
        , total := total
        , page := page
        , page_size := page_size
        , has_more := page * page_size < total }

/-- Embedding of `NetSapiensAdapter.list_devices` (netsapiens/client.py lines 490-527),
given the outcome of its `_make_request` call. -/
def list_devices (page page_size : Nat) (request_result : AdapterResult DevicesPayload) :
    AdapterResult (PaginatedResponse (VoIPDevice NSDevice)) :=
  match request_result with
  | .fail e => .fail e
  | .ok data =>
    let devices := data.devices.map transform_device
    let total := data.total.getD devices.length
    .ok { items := devices
        , total := total
        , page := page
        , page_size := page_size
        , has_more := page * page_size < total }

-- ----------------------------------------------------------------
-- Authentication preflight (netsapiens/client.py lines 111-160)
-- ----------------------------------------------------------------

/-- The decrypted credential map, restricted to the keys `_authenticate`
reads (`.get` semantics; a missing key is `none`). -/
structure NSCredentials where
  grant_type : Option String := none
  client_id : Option String := none
  client_secret : Option String := none
  username : Option String := none
  password : Option String := none
deriving DecidableEq, Repr

/-- Models `credentials.get("grant_type", "client_credentials")` (line 121). -/
def grantTypeOf (c : NSCredentials) : String :=
  c.grant_type.getD "client_credentials"

/-- The credential field named `f`, as `_authenticate` reads it. -/
def fieldValue (c : NSCredentials) (f : String) : Option String :=
  if f = "client_id" then c.client_id
  else if f = "client_secret" then c.client_secret
  else if f = "username" then c.username
  else if f = "password" then c.password
  else none

/-- The fields a grant type requires (from the validation on lines 126-137). -/
def requiredFields (grant : String) : List String :=
  if grant = "client_credentials" then ["client_id", "client_secret"]
  else if grant = "password" then ["client_id", "client_secret", "username", "password"]
  else []

/-- The required fields that are absent or empty in the credential map. -/
def missingFields (c : NSCredentials) (grant : String) : List String :=
  (requiredFields grant).filter (fun f => !truthy (fieldValue c f))

/-- Where `_authenticate` goes after its validation step: either it fails
fast (no token request is issued) or it issues the form-encoded token
request with these parameters. -/
inductive AuthStep
  | failFast (e : VoIPError)
  | tokenRequest (params : List (String × String))
deriving DecidableEq, Repr

/-- The validation and token-request construction of
`NetSapiensAdapter._authenticate` (netsapiens/client.py lines 119-160).
`client_id` / `client_secret` are read with default `""` in `__init__`
(lines 54-55); `username` / `password` with `.get` (lines 122-123). -/
def authPreflight (c : NSCredentials) : AuthStep :=
  let grant_type := grantTypeOf c
  let client_id := c.client_id.getD ""
  let client_secret := c.client_secret.getD ""
  if grant_type = "client_credentials" then
    if !(client_id != "" && client_secret != "") then
      .failFast { code := "AUTH_ERROR"
                , message := "Missing required credentials: client_id, client_secret" }
    else
      .tokenRequest [ ("grant_type", grant_type)
                    , ("client_id", client_id)
                    , ("client_secret", client_secret) ]
  else if grant_type = "password" then
    if !(client_id != "" && client_secret != "" &&
         truthy c.username && truthy c.password) then
      .failFast { code := "AUTH_ERROR"
                , message := "Missing required credentials: client_id, client_secret, username, password" }
    else
      .tokenRequest [ ("grant_type", grant_type)
                    , ("client_id", client_id)
                    , ("client_secret", client_secret)
                    , ("username", c.username.getD "")
                    , ("password", c.password.getD "") ]
  else
    .failFast { code := "AUTH_ERROR"
              , message := "Unsupported grant_type: " ++ grant_type ++
                           ". Supported: client_credentials, password" }

/-- The fixed intro of the missing-credentials messages. -/
def missingMsgIntro : String := "Missing required credentials: "

/-- The property the spec asserts of a missing-credentials message: it names
exactly the given fields (and nothing else). -/
def msgNamesExactly (msg : String) (fields : List String) : Prop :=
  msg = missingMsgIntro ++ joinFields fields

-- ----------------------------------------------------------------
-- Token lifecycle and request execution (netsapiens/client.py
-- lines 56-59, 203-216 and 240-314)
-- ----------------------------------------------------------------

/-- The mutable token state of a `NetSapiensAdapter` instance: the HTTP
client handle (lines 94-95 of base.py, set in `connect`), `_access_token`
and `_token_expires` (lines 58-59). Instants are epoch seconds. -/
structure NSState where
  clientOpen : Bool
  accessToken : Option String := none
  tokenExpires : Option Nat := none
deriving DecidableEq, Repr

/-- The fields `_authenticate` reads from a parsed 200 token response
(lines 203-216): `access_token`, `domain`, `expires_in`. -/
structure TokenData where
  access_token : Option String := none
  domain : Option String := none
  expires_in : Option Nat := none
deriving DecidableEq, Repr

/-- The state update a successful `_authenticate` performs (lines 203-216):
the access token is stored unconditionally; `_token_expires` is set to
`now + expires_in` only when `expires_in` is truthy (absent and `0` both
leave the previous value in place). -/
def applyAuth (st : NSState) (now : Nat) (td : TokenData) : NSState :=
  { st with
    accessToken := td.access_token
  , tokenExpires :=
      match td.expires_in with
      | some s => if s != 0 then some (now + s) else st.tokenExpires
      | none => st.tokenExpires }

/-- The expiry check of `_make_request` (line 257): `_token_expires` is
truthy (a datetime always is) and `now >= expiry`. -/
def tokenExpired (st : NSState) (now : Nat) : Bool :=
  match st.tokenExpires with
  | some e => e ≤ now
  | none => false

/-- A vendor HTTP response as `_make_request` consumes it: status code, body
text, and the outcome of `response.json()` (`none` = the body does not parse
as JSON). -/
structure HttpResponse (α : Type) where
  status : Nat
  text : String
  json : Option α := none
deriving DecidableEq, Repr

/-- The response processing of `_make_request` (netsapiens/client.py lines
276-302): HTTP status >= 400 fails with `HTTP_<status>` carrying the raw
body; an empty or whitespace-only body on a success status is the empty
payload `emptyPayload`; an unparseable non-empty body fails with
`PARSE_ERROR` carrying the first 500 characters of the body. -/
def handleResponse (emptyPayload : α) (resp : HttpResponse α) : AdapterResult α :=
  if resp.status ≥ 400 then
    .fail { code := "HTTP_" ++ toString resp.status
          , message := "API request failed: " ++ toString resp.status
          , details := some [("response", resp.text)] }
  else if isBlank resp.text then
    .ok emptyPayload
  else
    match resp.json with
    | some d => .ok d
    | none =>
      .fail { code := "PARSE_ERROR"
            , message := "Invalid JSON response from API"
            , details := some [ ("response_preview", strTake resp.text 500)
                              , ("status_code", toString resp.status) ] }

/-- Observable events of one `_make_request` call: a re-authentication
round-trip, and the issuing of the original vendor request. -/
inductive NSEvent
  | auth
  | request
deriving DecidableEq, Repr

/-- One `_make_request` call (netsapiens/client.py lines 240-302): not
connected fails immediately; an expired cached token triggers one
`_authenticate` (outcome `authOutcome`) before the request; otherwise the
request is issued directly. Returns the emitted events in order, the
post-call state, and the result. Transport errors (timeout background
exceptions, lines 304-314) are outside this model's inputs. -/
def makeRequest (st : NSState) (now : Nat)
    (authOutcome : Except VoIPError TokenData)
    (emptyPayload : α) (resp : HttpResponse α) :
    List NSEvent × NSState × AdapterResult α :=
  if st.clientOpen = false then
    ([], st, .fail { code := "NOT_CONNECTED"
                   , message := "Adapter not connected. Call connect() first." })
  else if tokenExpired st now then
    match authOutcome with
    | .error e => ([.auth], st, .fail e)
    | .ok td =>
      let st' := applyAuth st now td
      ([.auth, .request], st', handleResponse emptyPayload resp)
  else
    ([.request], st, handleResponse emptyPayload resp)

/-- The inputs of one `_make_request` call in a request sequence. -/
structure NSRequest (α : Type) where
  now : Nat
  authOutcome : Except VoIPError TokenData
  emptyPayload : α
  resp : HttpResponse α

/-- Run a sequence of `_make_request` calls on one adapter instance,
threading the token state and collecting the emitted events. -/
def runRequests : NSState → List (NSRequest α) → List NSEvent
  | _, [] => []
  | st, r :: rest =>
    let out := makeRequest st r.now r.authOutcome r.emptyPayload r.resp
    out.1 ++ runRequests out.2.1 rest

end NS

-- ================================================================
-- Optional capability contract (src/voip/adapters/base.py lines 268-539)
-- and the adapter registry (src/voip/adapters/registry.py)
-- ================================================================

/-- The optional (non-abstract) capability methods of `BaseVoIPAdapter`. -/
inductive OptionalCap
  | list_call_queues
  | get_call_queue
  | get_active_calls
  | get_call
  | transfer_call
  | hold_call
  | resume_call
  | mute_call
  | unmute_call
  | hangup_call
  | create_conference
  | add_to_conference
  | remove_from_conference
  | start_recording
  | stop_recording
  | park_call
  | unpark_call
  | get_call_history
  | get_recording
  | list_phone_numbers
  | get_phone_number
  | list_voicemails
  | get_voicemail
  | delete_voicemail
  | create_meeting
  | get_meeting
  | list_meetings
  | delete_meeting
deriving DecidableEq, Repr, Fintype

/-- The capability area named in each default method's error message
(base.py lines 268-539): note `start_recording` / `stop_recording` sit in
the call-control block and say "call control", while `get_recording` says
"recordings". -/
def OptionalCap.area : OptionalCap → String
  | .list_call_queues | .get_call_queue => "call queues"
  | .get_active_calls | .get_call | .transfer_call | .hold_call | .resume_call
  | .mute_call | .unmute_call | .hangup_call | .create_conference
  | .add_to_conference | .remove_from_conference | .start_recording
  | .stop_recording | .park_call | .unpark_call => "call control"
  | .get_call_history => "call history"
  | .get_recording => "recordings"
  | .list_phone_numbers | .get_phone_number => "phone number management"
  | .list_voicemails | .get_voicemail | .delete_voicemail => "voicemail"
  | .create_meeting | .get_meeting | .list_meetings | .delete_meeting => "meetings"

/-- The default body every optional method shares:
`AdapterResult.fail(code="NOT_SUPPORTED", message=f"... does not support ...")`. -/
def baseDefault (provider_name : String) (c : OptionalCap) : AdapterResult PUnit :=
  .fail { code := "NOT_SUPPORTED"
        , message := provider_name ++ " does not support " ++ c.area }

/-- The static facts about one registered adapter class: its identifiers and
which optional methods it overrides. -/
structure AdapterSpec where
  provider_type : String
  provider_name : String
  overridden : List OptionalCap
deriving DecidableEq, Repr

/-- Registry entry for `MockAdapter` (mock/client.py): `PROVIDER_TYPE = "mock"`,
`PROVIDER_NAME = "Mock Provider"`; it overrides none of the optional
capability methods. -/
def mockAdapterSpec : AdapterSpec :=
  { provider_type := "mock", provider_name := "Mock Provider", overridden := [] }

/-- Registry entry for `NetSapiensAdapter` (netsapiens/client.py): `PROVIDER_TYPE =
"netsapiens"`, `PROVIDER_NAME = "NetSapiens"`; it overrides exactly the
call-control block (lines 662-1027). -/
def netsapiensAdapterSpec : AdapterSpec :=
  { provider_type := "netsapiens"
  , provider_name := "NetSapiens"
  , overridden :=
      [ .get_active_calls, .get_call, .transfer_call, .hold_call, .resume_call
      , .mute_call, .unmute_call, .hangup_call, .create_conference
      , .add_to_conference, .remove_from_conference, .start_recording
      , .stop_recording, .park_call, .unpark_call ] }

/-- Embedding of `AdapterRegistry._adapters` (registry.py lines 19-22). -/
def registryAdapters : List AdapterSpec :=
  [netsapiensAdapterSpec, mockAdapterSpec]

/-- Invoking an optional capability method on an adapter: a method the
adapter does not override resolves to the inherited base default; an
overridden method performs vendor requests (modelled elsewhere), so it
yields no default result here. -/
def invokeOptional (a : AdapterSpec) (c : OptionalCap) :
    Option (AdapterResult PUnit) :=
  if c ∈ a.overridden then none else some (baseDefault a.provider_name c)

-- ================================================================
-- Orchestration service connect (src/voip/services/voip_service.py
-- lines 66-151)
-- ================================================================

namespace Service

/-- A `VoIPServiceError` as raised by the service (voip_service.py lines
30-37). -/
structure ServiceError where
  code : String
  message : String
deriving DecidableEq, Repr

/-- The fields of a `ProviderConnection` row the connect flow touches. -/
structure ConnectionRec where
  status : String
  last_error : String := ""
  provider_type : String
deriving DecidableEq, Repr

/-- The external collaborators and adapter outcome of one
`VoIPService.connect()` run: the loaded connection (`none` =
`DoesNotExist`), the credential row (`none` = missing), the decrypt outcome
(`none` = undecryptable), and the adapter's `connect()` result. -/
structure ConnectEnv where
  connection : Option ConnectionRec
  credential : Option (List (String × String)) := none
  decrypted : Option (List (String × String)) := none
  adapterConnect : AdapterResult (List (String × String)) := .ok []
deriving DecidableEq, Repr

instance : DecidableEq (Except ServiceError Unit) := fun a b =>
  match a, b with
  | .error e₁, .error e₂ =>
    if h : e₁ = e₂ then .isTrue (by rw [h]) else .isFalse (by simp [h])
  | .ok u₁, .ok u₂ => .isTrue (by rw [Unit.ext u₁ u₂])
  | .error _, .ok _ => .isFalse (by simp)
  | .ok _, .error _ => .isFalse (by simp)

/-- The observable outcome of `VoIPService.connect()`: the raised error (if
any), the connection row as persisted by `save()` (`none` = no save
happened), and the service's `_connected` flag. -/
structure ConnectOutcome where
  result : Except ServiceError Unit
  savedConnection : Option ConnectionRec := none
  connected : Bool := false
deriving DecidableEq, Repr

/-- Models `AdapterRegistry.is_supported` for the embedded registry. -/
def providerKnown (t : String) : Bool :=
  (registryAdapters.map (fun a => a.provider_type)).contains (strToLower t)

/-- Embedding of `VoIPService.connect` (voip_service.py lines 107-151) together with its
helpers `_load_connection`, `_load_credentials` and `_decrypt_credentials`
(lines 66-105): load the connection (`CONNECTION_NOT_FOUND` if absent),
reject inactive connections (`CONNECTION_INACTIVE`), load and decrypt the
credentials (`NO_CREDENTIALS` / `CREDENTIAL_ERROR`), resolve the adapter
(an unknown provider type raises `ValueError` out of the registry, modelled
as code `VALUE_ERROR`), then invoke the adapter's `connect`: on failure the
connection is saved with status `error` and the failure message as
`last_error`, and a `VoIPServiceError` with the same code and message is
raised; on success `_connected` becomes true and nothing is saved. -/
def connect (env : ConnectEnv) : ConnectOutcome :=
  match env.connection with
  | none =>
    { result := .error { code := "CONNECTION_NOT_FOUND"
                       , message := "Provider connection not found" } }
  | some conn =>
    if conn.status = "inactive" then
      { result := .error { code := "CONNECTION_INACTIVE"
                         , message := "Provider connection is inactive" } }
    else
      match env.credential with
      | none =>
        { result := .error { code := "NO_CREDENTIALS"
                           , message := "No credentials configured for this connection" } }
      | some _ =>
        match env.decrypted with
        | none =>
          { result := .error { code := "CREDENTIAL_ERROR"
                             , message := "Failed to decrypt credentials" } }
        | some _ =>
          if providerKnown conn.provider_type = false then
            { result := .error { code := "VALUE_ERROR"
                               , message := "Unsupported provider: " ++ conn.provider_type } }
          else
            match env.adapterConnect with
            | .fail e =>
              { result := .error { code := e.code, message := e.message }
              , savedConnection := some { conn with status := "error"
                                                  , last_error := e.message }
              , connected := false }
            | .ok _ =>
              { result := .ok ()
              , savedConnection := none
              , connected := true }

end Service

-- ================================================================
-- Shared helpers for the claim theorems
-- ================================================================

/-- Number of items in a successful paginated result (0 on failure). -/
def itemsCount : AdapterResult (PaginatedResponse α) → Nat
  | .ok p => p.items.length
  | .fail _ => 0

/-- The `total` of a successful paginated result (0 on failure). -/
def totalOf : AdapterResult (PaginatedResponse α) → Nat
  | .ok p => p.total
  | .fail _ => 0

/-- Fact: `truthy o` agrees with Python truthiness of `o.get(k, "")`. -/
theorem truthy_getD (o : Option String) : truthy o = (o.getD "" != "") := by
  cases o with
  | none => simp [truthy]
  | some s => rfl

-- ================================================================
-- Claim theorems
-- ================================================================

/-- C7: translating a vendor record to a universal entity (user, device or
call, in the NetSapiens adapter; user or device in the mock adapter) and
reading back `ProviderMetadata.raw_data` yields the original vendor record
unmodified. -/
theorem C7_raw_data_round_trip :
    (∀ u : NS.NSUser,
      (NS.transform_user u).provider_metadata.map (fun m => m.raw_data) = some u) ∧
    (∀ d : NS.NSDevice,
      (NS.transform_device d).provider_metadata.map (fun m => m.raw_data) = some d) ∧
    (∀ c : NS.NSCall,
      (NS.transform_call c).provider_metadata.map (fun m => m.raw_data) = some c) ∧
    (∀ (now : Nat) (u : Mock.MockUser),
      (Mock.to_voip_user now u).provider_metadata.map (fun m => m.raw_data) = some u) ∧
    (∀ (now : Nat) (d : Mock.MockDevice),
      (Mock.to_voip_device now d).provider_metadata.map (fun m => m.raw_data) = some d) :=
  ⟨fun _ => rfl, fun _ => rfl, fun _ => rfl, fun _ _ => rfl, fun _ _ => rfl⟩

/-- C2: for every adapter in the registry and every optional capability
method the adapter does not override, invoking that method resolves to the
inherited base default, a failed result coded `NOT_SUPPORTED` whose message
contains the adapter's provider name. -/
theorem C2_not_supported_defaults :
    ∀ a ∈ registryAdapters, ∀ c : OptionalCap, c ∉ a.overridden →
      invokeOptional a c = some (baseDefault a.provider_name c) ∧
      (baseDefault a.provider_name c).errorCode = some "NOT_SUPPORTED" ∧
      strContains ((baseDefault a.provider_name c).errorMessage.getD "")
        a.provider_name = true := by
  decide

/-- Witness for C2 at a concrete input: the mock adapter does not override
`list_call_queues`, and invoking it yields the `NOT_SUPPORTED` default
naming "Mock Provider". -/
theorem C2_witness :
    invokeOptional mockAdapterSpec .list_call_queues =
      some (baseDefault mockAdapterSpec.provider_name .list_call_queues) ∧
    (baseDefault mockAdapterSpec.provider_name .list_call_queues).errorCode =
      some "NOT_SUPPORTED" ∧
    strContains
      ((baseDefault mockAdapterSpec.provider_name .list_call_queues).errorMessage.getD "")
      mockAdapterSpec.provider_name = true :=
  C2_not_supported_defaults mockAdapterSpec (by decide) .list_call_queues (by decide)

/-- C3: on a connected adapter with a cached token expiry, a vendor request
at a time at or past the expiry triggers exactly one re-authentication,
which precedes the original request (the request is issued exactly when the
re-authentication succeeds); at a time before the expiry no
re-authentication occurs and the request proceeds directly. -/
theorem C3_token_refresh (st : NS.NSState) (now e : Nat)
    (auth : Except VoIPError NS.TokenData) (empty : α) (resp : NS.HttpResponse α)
    (hc : st.clientOpen = true) (he : st.tokenExpires = some e) :
    (e ≤ now →
      (NS.makeRequest st now auth empty resp).1.count .auth = 1 ∧
      (NS.makeRequest st now auth empty resp).1.head? = some .auth ∧
      (∀ td, auth = .ok td →
        (NS.makeRequest st now auth empty resp).1 = [.auth, .request]) ∧
      (∀ err, auth = .error err →
        (NS.makeRequest st now auth empty resp).1 = [.auth])) ∧
    (now < e → (NS.makeRequest st now auth empty resp).1 = [.request]) := by
  constructor
  · intro hle
    have hexp : NS.tokenExpired st now = true := by
      simp [NS.tokenExpired, he, hle]
    cases auth with
    | error err =>
      refine ⟨?_, ?_, ?_, ?_⟩ <;>
        simp [NS.makeRequest, hc, hexp]
    | ok td =>
      refine ⟨?_, ?_, ?_, ?_⟩ <;>
        simp [NS.makeRequest, hc, hexp]
  · intro hlt
    have hexp : NS.tokenExpired st now = false := by
      simp [NS.tokenExpired, he]
      omega
    simp [NS.makeRequest, hc, hexp]

/-- Witness for C3 at a concrete input: token expired at 5, request at
time 10 with a successful re-authentication re-authenticates once and then
issues the request. -/
theorem C3_witness :
    (NS.makeRequest ⟨true, some "tok", some 5⟩ 10
        (.ok { access_token := some "tok2", expires_in := some 3600 })
        PUnit.unit ⟨200, "body", some PUnit.unit⟩).1 = [.auth, .request] := by
  have h := C3_token_refresh (α := PUnit) ⟨true, some "tok", some 5⟩ 10 5
    (.ok { access_token := some "tok2", expires_in := some 3600 })
    PUnit.unit ⟨200, "body", some PUnit.unit⟩ rfl rfl
  exact (h.1 (by decide)).2.2.1 _ rfl

/-- Helper for C10: a request made with no cached expiry never
re-authenticates and leaves the token state unchanged. -/
theorem NS.makeRequest_no_expiry (st : NS.NSState) (now : Nat)
    (auth : Except VoIPError NS.TokenData) (empty : α) (resp : NS.HttpResponse α)
    (h : st.tokenExpires = none) :
    (NS.makeRequest st now auth empty resp).1.count .auth = 0 ∧
    (NS.makeRequest st now auth empty resp).2.1 = st := by
  have hexp : NS.tokenExpired st now = false := by
    simp [NS.tokenExpired, h]
  cases hco : st.clientOpen <;>
    simp [NS.makeRequest, hco, hexp]

/-- C10: when the token response carries no `expires_in` field, a cached
expiry that was unset stays unset after authentication, and an adapter
instance whose expiry is unset never triggers a re-authentication on any
subsequent sequence of vendor requests. -/
theorem C10_no_expiry_never_reauth (st : NS.NSState) (now : Nat)
    (tok dom : Option String) (reqs : List (NS.NSRequest α))
    (h : st.tokenExpires = none) :
    (NS.applyAuth st now { access_token := tok, domain := dom, expires_in := none }).tokenExpires = none ∧
    (NS.runRequests st reqs).count .auth = 0 := by
  constructor
  · simp [NS.applyAuth]
    exact h
  · induction reqs generalizing st with
    | nil => simp [NS.runRequests]
    | cons r rest ih =>
      have hmr := NS.makeRequest_no_expiry st r.now r.authOutcome r.emptyPayload r.resp h
      simp only [NS.runRequests, List.count_append]
      rw [hmr.1, hmr.2, ih _ h]

/-- Witness for C10 at a concrete input: an adapter with no cached expiry,
after an auth response without `expires_in` and across two subsequent
requests, never re-authenticates. -/
theorem C10_witness :
    (NS.applyAuth ⟨true, some "tok", none⟩ 7
      { access_token := some "t2", domain := none, expires_in := none }).tokenExpires = none ∧
    (NS.runRequests (α := PUnit) ⟨true, some "tok", none⟩
      [ ⟨1, .ok {}, PUnit.unit, ⟨200, "a", some PUnit.unit⟩⟩
      , ⟨99999, .ok {}, PUnit.unit, ⟨500, "b", none⟩⟩ ]).count .auth = 0 :=
  C10_no_expiry_never_reauth ⟨true, some "tok", none⟩ 7 (some "t2") none _ rfl

/-- C8: when the earlier connect steps succeed and the resolved adapter's
`connect` returns a failed result, the orchestration service persists the
connection with status `error` and the adapter's failure message as
`last_error`, raises a service error with the same code and message, and
does not enter the connected state. -/
theorem C8_connect_failure_propagation (env : Service.ConnectEnv)
    (conn : Service.ConnectionRec) (cred dec : List (String × String))
    (e : VoIPError)
    (hconn : env.connection = some conn)
    (hact : conn.status ≠ "inactive")
    (hcred : env.credential = some cred)
    (hdec : env.decrypted = some dec)
    (hprov : Service.providerKnown conn.provider_type = true)
    (hfail : env.adapterConnect = .fail e) :
    Service.connect env =
      { result := .error { code := e.code, message := e.message }
      , savedConnection := some { conn with status := "error", last_error := e.message }
      , connected := false } := by
  simp [Service.connect, hconn, hact, hcred, hdec, hprov, hfail]

/-- Witness for C8 at a concrete input: an active mock connection with
credentials whose adapter connect fails with `AUTH_ERROR` is persisted as
`error` and the same error is raised. -/
theorem C8_witness :
    Service.connect
      { connection := some { status := "active", last_error := "", provider_type := "mock" }
      , credential := some []
      , decrypted := some [("client_id", "abc")]
      , adapterConnect := .fail { code := "AUTH_ERROR", message := "OAuth authentication failed" } } =
      { result := .error { code := "AUTH_ERROR", message := "OAuth authentication failed" }
      , savedConnection := some
          { status := "error", last_error := "OAuth authentication failed", provider_type := "mock" }
      , connected := false } :=
  C8_connect_failure_propagation _ _ [] [("client_id", "abc")]
    { code := "AUTH_ERROR", message := "OAuth authentication failed" }
    rfl (by decide) rfl rfl (by decide) rfl

/-- Counterexample for C1: the NetSapiens adapter does not truncate the
vendor's records to the requested page size — `list_users` with
`page_size = 1` returns 2 items when the vendor response contains 2
subscriber records, violating `items.length <= page_size`. -/
theorem C1_counterexample :
    itemsCount (NS.list_users 1 1 none none
      (.ok { subscribers := [{ user := some "a" }, { user := some "b" }]
           , total := some 10 })) = 2 ∧ ¬ (2 ≤ 1) := by
  constructor
  · rfl
  · decide

/-- C1 (amended): for every list operation and every `page >= 1`,
`page_size >= 1`, the returned result satisfies
`has_more = (page * page_size < total)`; the number of returned items is at
most `page_size` in the mock adapter unconditionally, and in the NetSapiens
adapter whenever the vendor response contains at most `page_size` records
(the adapter returns the vendor's records untruncated). -/
theorem C1_pagination_contract (now : Nat) (store : List Mock.MockUser)
    (dstore : List Mock.MockDevice) (page page_size : Nat)
    (search status user_id : Option String)
    (udata : NS.UsersPayload) (ddata : NS.DevicesPayload)
    (hp : 1 ≤ page) :
    (∀ p, Mock.list_users now store page page_size search status = .ok p →
      p.has_more = decide (page * page_size < p.total) ∧
      p.items.length ≤ page_size) ∧
    (∀ p, Mock.list_devices now dstore page page_size user_id = .ok p →
      p.has_more = decide (page * page_size < p.total) ∧
      p.items.length ≤ page_size) ∧
    (∀ p, NS.list_users page page_size search status (.ok udata) = .ok p →
      p.has_more = decide (page * page_size < p.total) ∧
      (udata.subscribers.length ≤ page_size → p.items.length ≤ page_size)) ∧
    (∀ p, NS.list_devices page page_size (.ok ddata) = .ok p →
      p.has_more = decide (page * page_size < p.total) ∧
      (ddata.devices.length ≤ page_size → p.items.length ≤ page_size)) := by
  obtain ⟨q, rfl⟩ : ∃ q, page = q + 1 := ⟨page - 1, by omega⟩
  have hmul : (q + 1 - 1) * page_size + page_size = (q + 1) * page_size := by
    simp [Nat.succ_mul]
  refine ⟨?_, ?_, ?_, ?_⟩
  · intro p hpeq
    rw [Mock.list_users] at hpeq
    cases hpeq
    refine ⟨by rw [hmul], ?_⟩
    simp only [List.length_map]
    exact (List.length_take_le _ _)
  · intro p hpeq
    rw [Mock.list_devices] at hpeq
    cases hpeq
    refine ⟨by rw [hmul], ?_⟩
    simp only [List.length_map]
    exact (List.length_take_le _ _)
  · intro p hpeq
    rw [NS.list_users] at hpeq
    cases hpeq
    refine ⟨rfl, ?_⟩
    intro hlen
    simpa using hlen
  · intro p hpeq
    rw [NS.list_devices] at hpeq
    cases hpeq
    refine ⟨rfl, ?_⟩
    intro hlen
    simpa using hlen

/-- Witness for C1 at a concrete input: page 2 of size 3 over the 8 seeded
mock users has `has_more = true` (and 3 items), and a NetSapiens response
with one record on a size-50 page has `has_more = false` and 1 item. -/
theorem C1_witness :
    (∀ p, Mock.list_users 0 Mock.MOCK_USERS 2 3 none none = .ok p →
      p.has_more = decide (2 * 3 < p.total) ∧ p.items.length ≤ 3) ∧
    (∀ p, NS.list_users 1 50 none none
        (.ok { subscribers := [{ user := some "a" }], total := some 1 }) = .ok p →
      p.has_more = decide (1 * 50 < p.total) ∧ (1 ≤ 50 → p.items.length ≤ 50)) :=
  ⟨(C1_pagination_contract 0 Mock.MOCK_USERS [] 2 3 none none none
      { subscribers := [{ user := some "a" }], total := some 1 } {} (by decide)).1,
   (C1_pagination_contract 0 Mock.MOCK_USERS [] 1 50 none none none
      { subscribers := [{ user := some "a" }], total := some 1 } {} (by decide)).2.2.1⟩

/-- Counterexample for C4: for an unparseable body of at most 500
characters the `PARSE_ERROR` preview IS the full body — here the body
"\x7b" (a lone opening brace, invalid JSON) is carried verbatim in
`response_preview`, refuting "never the full body". -/
theorem C4_counterexample :
    NS.handleResponse PUnit.unit { status := 200, text := "\x7b", json := none } =
      .fail { code := "PARSE_ERROR"
            , message := "Invalid JSON response from API"
            , details := some [("response_preview", "\x7b"), ("status_code", "200")] } ∧
    strTake "\x7b" 500 = "\x7b" := by
  exact ⟨rfl, rfl⟩

/-- C4 (amended): a vendor response with status >= 400 yields a failed
result coded `HTTP_<status>` whose details carry the raw body; a success
status with an empty or whitespace-only body yields a successful result
with the empty payload; a success status with a non-empty unparseable body
yields a failed result coded `PARSE_ERROR` whose details carry the first
500 characters of the body — at most 500 characters, so a body longer than
500 characters is never carried in full (a body of at most 500 characters
is its own preview). -/
theorem C4_response_handling (empty : α) (resp : NS.HttpResponse α) :
    (resp.status ≥ 400 →
      NS.handleResponse empty resp =
        .fail { code := "HTTP_" ++ toString resp.status
              , message := "API request failed: " ++ toString resp.status
              , details := some [("response", resp.text)] }) ∧
    (resp.status < 400 → isBlank resp.text = true →
      NS.handleResponse empty resp = .ok empty) ∧
    (resp.status < 400 → isBlank resp.text = false → resp.json = none →
      NS.handleResponse empty resp =
        .fail { code := "PARSE_ERROR"
              , message := "Invalid JSON response from API"
              , details := some [ ("response_preview", strTake resp.text 500)
                                , ("status_code", toString resp.status) ] } ∧
      (strTake resp.text 500).length ≤ 500 ∧
      (500 < resp.text.length → strTake resp.text 500 ≠ resp.text)) := by
  refine ⟨?_, ?_, ?_⟩
  · intro h400
    simp [NS.handleResponse, h400]
  · intro hlt hblank
    have h1 : ¬ resp.status ≥ 400 := by omega
    simp [NS.handleResponse, h1, hblank]
  · intro hlt hblank hjson
    have h1 : ¬ resp.status ≥ 400 := by omega
    have hmin : (strTake resp.text 500).length = min 500 resp.text.length :=
      List.length_take 500 resp.text.data
    refine ⟨by simp [NS.handleResponse, h1, hblank, hjson], ?_, ?_⟩
    · rw [hmin]
      omega
    · intro hlong heq
      have hlen : (strTake resp.text 500).length = resp.text.length := by rw [heq]
      rw [hmin] at hlen
      omega

/-- Witness for C4 at concrete inputs: a 404 with body "gone" maps to
`HTTP_404` carrying the body; a 200 with a whitespace body is the empty
payload; a 200 with a 501-character unparseable body gets a 500-character
preview differing from the body. -/
theorem C4_witness :
    (NS.handleResponse (α := PUnit) PUnit.unit { status := 404, text := "gone", json := none } =
      .fail { code := "HTTP_" ++ toString 404
            , message := "API request failed: " ++ toString 404
            , details := some [("response", "gone")] }) ∧
    (NS.handleResponse (α := PUnit) PUnit.unit { status := 200, text := "  ", json := none } =
      .ok PUnit.unit) ∧
    (500 < (String.mk (List.replicate 501 'x')).length →
      strTake (String.mk (List.replicate 501 'x')) 500 ≠ String.mk (List.replicate 501 'x')) :=
  ⟨(C4_response_handling PUnit.unit { status := 404, text := "gone", json := none }).1
      (by decide),
   (C4_response_handling PUnit.unit { status := 200, text := "  ", json := none }).2.1
      (by decide) (by decide),
   ((C4_response_handling PUnit.unit
      { status := 200, text := String.mk (List.replicate 501 'x'), json := none }).2.2
      (by decide) (by decide) rfl).2.2⟩

/-- Counterexample for C5: with `client_id = "abc"` present and
`client_secret = ""` empty under the default client-credentials grant, the
failure message is the static full required-field list — it names
`client_id` although that field is present, so it does not name exactly the
missing fields. -/
theorem C5_counterexample :
    NS.authPreflight { client_id := some "abc", client_secret := some "" } =
      .failFast { code := "AUTH_ERROR"
                , message := "Missing required credentials: client_id, client_secret" } ∧
    NS.missingFields { client_id := some "abc", client_secret := some "" }
      "client_credentials" = ["client_secret"] ∧
    ¬ NS.msgNamesExactly "Missing required credentials: client_id, client_secret"
        ["client_secret"] ∧
    truthy (NS.fieldValue { client_id := some "abc", client_secret := some "" }
      "client_id") = true ∧
    strContains "Missing required credentials: client_id, client_secret"
      "client_id" = true := by
  refine ⟨rfl, by decide, ?_, by decide, by decide⟩
  intro h
  simp only [NS.msgNamesExactly, NS.missingMsgIntro, joinFields] at h
  exact absurd h (by decide)

/-- Helper: normal form of `authPreflight` under the client-credentials
grant. -/
theorem NS.authPreflight_cc (c : NS.NSCredentials)
    (h : NS.grantTypeOf c = "client_credentials") :
    NS.authPreflight c =
      if truthy c.client_id && truthy c.client_secret then
        .tokenRequest [ ("grant_type", "client_credentials")
                      , ("client_id", c.client_id.getD "")
                      , ("client_secret", c.client_secret.getD "") ]
      else
        .failFast { code := "AUTH_ERROR"
                  , message := "Missing required credentials: client_id, client_secret" } := by
  have hci := truthy_getD c.client_id
  have hcs := truthy_getD c.client_secret
  rw [NS.authPreflight]
  simp only [h, if_pos rfl, ← hci, ← hcs]
  cases truthy c.client_id <;> cases truthy c.client_secret <;> simp

/-- Helper: normal form of `authPreflight` under the password grant. -/
theorem NS.authPreflight_pw (c : NS.NSCredentials)
    (h : NS.grantTypeOf c = "password") :
    NS.authPreflight c =
      if truthy c.client_id && truthy c.client_secret &&
         truthy c.username && truthy c.password then
        .tokenRequest [ ("grant_type", "password")
                      , ("client_id", c.client_id.getD "")
                      , ("client_secret", c.client_secret.getD "")
                      , ("username", c.username.getD "")
                      , ("password", c.password.getD "") ]
      else
        .failFast { code := "AUTH_ERROR"
                  , message := "Missing required credentials: client_id, client_secret, username, password" } := by
  have hci := truthy_getD c.client_id
  have hcs := truthy_getD c.client_secret
  rw [NS.authPreflight]
  simp only [h, ← hci, ← hcs, if_true]
  cases truthy c.client_id <;> cases truthy c.client_secret <;>
    cases truthy c.username <;> cases truthy c.password <;> simp

/-- Helper: no required field is missing under the client-credentials grant
exactly when both credential fields are truthy. -/
theorem NS.missingFields_cc_empty (c : NS.NSCredentials) :
    NS.missingFields c "client_credentials" = [] ↔
      (truthy c.client_id && truthy c.client_secret) = true := by
  cases h1 : truthy c.client_id <;> cases h2 : truthy c.client_secret <;>
    simp [NS.missingFields, NS.requiredFields, NS.fieldValue, h1, h2]

/-- Helper: no required field is missing under the password grant exactly
when all four credential fields are truthy. -/
theorem NS.missingFields_pw_empty (c : NS.NSCredentials) :
    NS.missingFields c "password" = [] ↔
      (truthy c.client_id && truthy c.client_secret &&
       truthy c.username && truthy c.password) = true := by
  cases h1 : truthy c.client_id <;> cases h2 : truthy c.client_secret <;>
    cases h3 : truthy c.username <;> cases h4 : truthy c.password <;>
      simp [NS.missingFields, NS.requiredFields, NS.fieldValue, h1, h2, h3, h4]

/-- C5 (amended): for a supported grant type, if any required credential
field is absent or empty then authentication fails fast with `AUTH_ERROR`
before any token request is issued, and the error message names the full
set of fields required by the grant — a superset of the missing fields
(present fields may be listed too); if no required field is missing, the
token request is issued. -/
theorem C5_auth_validation (c : NS.NSCredentials)
    (hg : NS.grantTypeOf c = "client_credentials" ∨ NS.grantTypeOf c = "password") :
    (NS.missingFields c (NS.grantTypeOf c) ≠ [] →
      NS.authPreflight c =
        .failFast { code := "AUTH_ERROR"
                  , message := NS.missingMsgIntro ++
                      joinFields (NS.requiredFields (NS.grantTypeOf c)) }) ∧
    (NS.missingFields c (NS.grantTypeOf c) = [] →
      ∃ ps, NS.authPreflight c = .tokenRequest ps) ∧
    (∀ f ∈ NS.missingFields c (NS.grantTypeOf c),
      f ∈ NS.requiredFields (NS.grantTypeOf c)) := by
  rcases hg with h | h
  · rw [h, NS.authPreflight_cc c h]
    refine ⟨?_, ?_, fun f hf => List.mem_of_mem_filter hf⟩
    · intro hmiss
      have hcond : (truthy c.client_id && truthy c.client_secret) = false := by
        cases ht : (truthy c.client_id && truthy c.client_secret)
        · rfl
        · exact absurd ((NS.missingFields_cc_empty c).mpr ht) hmiss
      rw [hcond]
      rfl
    · intro hmiss
      have hcond := (NS.missingFields_cc_empty c).mp hmiss
      rw [hcond]
      exact ⟨_, rfl⟩
  · rw [h, NS.authPreflight_pw c h]
    refine ⟨?_, ?_, fun f hf => List.mem_of_mem_filter hf⟩
    · intro hmiss
      have hcond : (truthy c.client_id && truthy c.client_secret &&
          truthy c.username && truthy c.password) = false := by
        cases ht : (truthy c.client_id && truthy c.client_secret &&
            truthy c.username && truthy c.password)
        · rfl
        · exact absurd ((NS.missingFields_pw_empty c).mpr ht) hmiss
      rw [hcond]
      rfl
    · intro hmiss
      have hcond := (NS.missingFields_pw_empty c).mp hmiss
      rw [hcond]
      exact ⟨_, rfl⟩

/-- Witness for C5 at a concrete input: a password-grant credential map
missing `username` and `password` fails fast with the static message naming
all four required fields. -/
theorem C5_witness :
    NS.authPreflight
      { grant_type := some "password", client_id := some "id", client_secret := some "sec" } =
      .failFast { code := "AUTH_ERROR"
                , message := NS.missingMsgIntro ++
                    joinFields (NS.requiredFields (NS.grantTypeOf
                      { grant_type := some "password", client_id := some "id"
                      , client_secret := some "sec" })) } :=
  (C5_auth_validation
    { grant_type := some "password", client_id := some "id", client_secret := some "sec" }
    (Or.inr rfl)).1 (by decide)

/-- Counterexample for C6: the unrecognized user status "deleted" is outside
the mapping table yet translates to `UserStatus.ACTIVE` — an ordinary
status, indistinguishable from a recognized active user — and `UserStatus`
has no OTHER/UNKNOWN member at all; likewise the unrecognized call status
"voicemail" translates to `CallStatus.CONNECTED`. -/
theorem C6_counterexample :
    NS.user_status_map "deleted" = none ∧
    (NS.transform_user { status := some "deleted" }).status = UserStatus.active ∧
    (∀ s : UserStatus,
      s = .active ∨ s = .inactive ∨ s = .suspended ∨ s = .pending) ∧
    NS.call_status_map "voicemail" = none ∧
    (NS.transform_call { status := some "voicemail" }).status = CallStatus.connected := by
  refine ⟨rfl, rfl, ?_, rfl, rfl⟩
  decide

/-- C6 (amended): translation never fails on an unrecognized vendor enum
string — every value outside the mapping tables degrades to an explicit
fallback: `DeviceType.OTHER` for device types and `DeviceStatus.UNKNOWN`
for device statuses (in both adapters), but `UserStatus.ACTIVE` for user
statuses and `CallStatus.CONNECTED` for call statuses. -/
theorem C6_translation_fallbacks :
    (∀ (u : NS.NSUser) (s : String), u.status = some s →
      NS.user_status_map s = none →
      (NS.transform_user u).status = UserStatus.active) ∧
    (∀ t : String, NS.device_type_map t = none →
      NS.from_ns_device_type (some t) = DeviceType.other) ∧
    (∀ t : String, NS.device_status_map t = none →
      NS.map_device_status (some t) = DeviceStatus.unknown) ∧
    (∀ (c : NS.NSCall) (s : String), c.status = some s →
      NS.call_status_map s = none →
      (NS.transform_call c).status = CallStatus.connected) ∧
    (∀ (now : Nat) (u : Mock.MockUser) (s : String), u.status = some s →
      Mock.user_status_map s = none →
      (Mock.to_voip_user now u).status = UserStatus.active) ∧
    (∀ (now : Nat) (d : Mock.MockDevice) (t : String), d.device_type = some t →
      Mock.device_type_map t = none →
      (Mock.to_voip_device now d).device_type = DeviceType.other) := by
  refine ⟨?_, ?_, ?_, ?_, ?_, ?_⟩
  · intro u s hu hm
    simp [NS.transform_user, hu, hm]
  · intro t hm
    simp [NS.from_ns_device_type, hm]
  · intro t hm
    simp [NS.map_device_status, hm]
  · intro c s hc hm
    simp [NS.transform_call, hc, hm]
  · intro now u s hu hm
    simp [Mock.to_voip_user, hu, hm]
  · intro now d t hd hm
    simp [Mock.to_voip_device, hd, hm]

/-- Witness for C6 at concrete inputs: the unmapped strings "deleted",
"fax_machine" and "wrapping_up" hit the ACTIVE / OTHER / UNKNOWN /
CONNECTED fallbacks. -/
theorem C6_witness :
    (NS.transform_user { status := some "deleted" }).status = UserStatus.active ∧
    NS.from_ns_device_type (some "fax_machine") = DeviceType.other ∧
    NS.map_device_status (some "wrapping_up") = DeviceStatus.unknown ∧
    (NS.transform_call { status := some "voicemail" }).status = CallStatus.connected :=
  ⟨C6_translation_fallbacks.1 { status := some "deleted" } "deleted" rfl rfl,
   C6_translation_fallbacks.2.1 "fax_machine" rfl,
   C6_translation_fallbacks.2.2.1 "wrapping_up" rfl,
   C6_translation_fallbacks.2.2.2.1 { status := some "voicemail" } "voicemail" rfl rfl⟩

/-- Counterexample for C9: the NetSapiens adapter applies no status filter —
`list_users` with `status = "inactive"` returns the same result as with no
status filter, including a user whose universal status is ACTIVE. -/
theorem C9_counterexample :
    (NS.list_users 1 50 none (some "inactive")
      (.ok { subscribers := [{ user := some "jsmith", status := some "active" }]
           , total := some 1 }) =
     NS.list_users 1 50 none none
      (.ok { subscribers := [{ user := some "jsmith", status := some "active" }]
           , total := some 1 })) ∧
    itemsCount (NS.list_users 1 50 none (some "inactive")
      (.ok { subscribers := [{ user := some "jsmith", status := some "active" }]
           , total := some 1 })) = 1 ∧
    (NS.transform_user { user := some "jsmith", status := some "active" }).status =
      UserStatus.active ∧
    UserStatus.active.val ≠ "inactive" := by
  refine ⟨rfl, rfl, rfl, ?_⟩
  decide

/-- C9 (amended): in the mock adapter, `list_users` selects exactly the
stored records whose lowercased username / email / first-name / last-name /
extension contains the lowercased search term and whose raw stored status
equals the status filter, then paginates; in the NetSapiens adapter the
status argument has no effect on the result, and the search term is
forwarded verbatim to the vendor as the `search` query parameter. -/
theorem C9_filter_semantics (now : Nat) (store : List Mock.MockUser)
    (page page_size : Nat) (s st : String) (hs : s ≠ "") (hst : st ≠ "") :
    (∀ p, Mock.list_users now store page page_size (some s) (some st) = .ok p →
      p.total = (store.filter (fun u =>
        Mock.searchMatch (strToLower s) u && (u.status == some st))).length ∧
      p.items = (((store.filter (fun u =>
        Mock.searchMatch (strToLower s) u && (u.status == some st))).drop
          ((page - 1) * page_size)).take page_size).map (Mock.to_voip_user now)) ∧
    (∀ (r : AdapterResult NS.UsersPayload) (st₁ st₂ se : Option String),
      NS.list_users page page_size se st₁ r = NS.list_users page page_size se st₂ r) ∧
    (∀ domain : String,
      ("search", s) ∈ NS.list_users_params domain page page_size (some s)) := by
  have hts : truthy (some s) = true := by simp [truthy, hs]
  have htst : truthy (some st) = true := by simp [truthy, hst]
  refine ⟨?_, fun r st₁ st₂ se => rfl, ?_⟩
  · intro p hp
    rw [Mock.list_users] at hp
    simp only [hts, htst, if_true, List.filter_filter] at hp
    cases hp
    refine ⟨?_, ?_⟩ <;> simp [Bool.and_comm]
  · intro domain
    simp [NS.list_users_params, hts]

/-- Witness for C9 at a concrete input: over the seeded mock users, the
search "smith" with status "active" selects exactly one record
(user-001, jsmith), and the result's total reports it. -/
theorem C9_witness :
    totalOf (Mock.list_users 0 Mock.MOCK_USERS 1 50 (some "smith") (some "active")) =
      (Mock.MOCK_USERS.filter (fun u =>
        Mock.searchMatch (strToLower "smith") u && (u.status == some "active"))).length ∧
    (Mock.MOCK_USERS.filter (fun u =>
      Mock.searchMatch (strToLower "smith") u && (u.status == some "active"))).length = 1 := by
  cases hres : Mock.list_users 0 Mock.MOCK_USERS 1 50 (some "smith") (some "active") with
  | fail e => exact absurd hres (by simp [Mock.list_users])
  | ok p =>
    have h := (C9_filter_semantics 0 Mock.MOCK_USERS 1 50 "smith" "active"
      (by decide) (by decide)).1 p hres
    refine ⟨?_, by decide⟩
    simpa [totalOf] using h.1

end PeerlogicVoIP
